import Mathlib

/-!
Verification of `statsmodels/base/constraint.py` (`ConstraintProjector`).

The source defines a class holding a fixed feasible region
`\x7bx : x_min ≤ x ≤ x_max, A·x ≤ b\x7d` and a cvxpy problem
`minimize ‖x - goal‖² subject to those constraints`, re-solved per call.
We embed vectors over `ℚ` (exact arithmetic; the spec's "within numerical
tolerance" is the exact statement here), the constraint set and the squared
L2 cost from the source, and model the external cvxpy `prob.solve()` call as
an arbitrary function returning a status string and a primal value, with a
correctness predicate (`CorrectSolve`) saying that a status of "optimal"
really delivers the minimizer of the problem the source built.
-/

/-- Length-`n` vector of rationals (a 1d numeric array of the source). -/
def Vec (n : Nat) : Type := Fin n → ℚ

/-- `k × n` matrix of rationals (the 2d constraint array `A`). -/
def Mat (k n : Nat) : Type := Fin k → Fin n → ℚ

/-- Matrix–vector product `A @ x` from the constraint `A@self.x <= b`. -/
def mulVec {k n : Nat} (A : Mat k n) (x : Vec n) : Vec k :=
  fun i => ∑ j, A i j * x j

/-- The fixed data of the constraint set stored by `ConstraintProjector.__init__`:
`self.x_min`, `self.x_max`, `self.A`, `self.b`. -/
structure Region (k n : Nat) where
  x_min : Vec n
  x_max : Vec n
  A : Mat k n
  b : Vec k

/-- The constraint list built at line 37 of the source:
`self.x >= x_min`, `self.x <= x_max`, `A@self.x <= b`. -/
def Feasible {k n : Nat} (R : Region k n) (x : Vec n) : Prop :=
  (∀ i, R.x_min i ≤ x i) ∧ (∀ i, x i ≤ R.x_max i) ∧ (∀ i, mulVec R.A x i ≤ R.b i)

/-- The cost `cp.sum_squares(self.x - self.goal)` (line 38). -/
def sqDist {n : Nat} (x y : Vec n) : ℚ := ∑ i, (x i - y i) ^ 2

/-- `x` solves the optimization problem `cp.Minimize(cost)` under the
constraint list (line 39): it is feasible and minimizes the squared distance
to the goal over all feasible points. -/
def IsProjection {k n : Nat} (R : Region k n) (g x : Vec n) : Prop :=
  Feasible R x ∧ ∀ y, Feasible R y → sqDist x g ≤ sqDist y g

/-- The componentwise midpoint of two vectors. -/
def midVec {n : Nat} (x y : Vec n) : Vec n := fun i => (x i + y i) / 2

/-- What the external `prob.solve()` call reports: cvxpy's `prob.status`
string and the primal value written into `self.x.value`. -/
structure SolveOutcome (n : Nat) where
  status : String
  xOut : Vec n

/-- The mutable per-instance state of `ConstraintProjector`: the fixed
constraint data, the parameter `self.goal.value` and the variable
`self.x.value`. -/
structure SolverState (k n : Nat) where
  region : Region k n
  goalParam : Vec n
  xValue : Vec n

/-- Model of the external solver: a function of the built problem's fixed
constraint data, the current goal-parameter value and the warm-start seed
(`self.x.value` at the moment `solve` is called; `none` when the variable
has no value yet, as at construction time). -/
def SolveFn (k n : Nat) : Type :=
  Region k n → Vec n → Option (Vec n) → SolveOutcome n

/-- A solver is correct when a reported "optimal" status really delivers a
minimizer of the problem the source built (whatever the seed was). -/
def CorrectSolve {k n : Nat} (solve : SolveFn k n) : Prop :=
  ∀ R gp seed, (solve R gp seed).status = "optimal" →
    IsProjection R gp (solve R gp seed).xOut

/-- Lines 55–56 of `project`: `self.goal.value = goal; self.x.value = goal`.
Both the goal parameter and the primal iterate are overwritten with the
supplied goal before the solve. -/
def seedState {k n : Nat} (st : SolverState k n) (goal : Vec n) : SolverState k n :=
  { st with goalParam := goal, xValue := goal }

/-- `ConstraintProjector.project` (lines 46–60): set `goal.value` and
`x.value` to the supplied goal, run the solve, raise
`ValueError("Failed to solve optimization problem, status=...")` unless the
status is `'optimal'`, otherwise return `self.x.value`. The returned pair is
(state of the instance after the call, raised error or returned vector).
On a successful solve the variable holds the solver's primal value; on a
failed solve the model keeps the seeded state (the external solver's
clobbering of `x.value` on failure is not modelled). -/
def project {k n : Nat} (solve : SolveFn k n) (st : SolverState k n)
    (goal : Vec n) : SolverState k n × Except String (Vec n) :=
  let st1 := seedState st goal
  let out := solve st1.region st1.goalParam (some st1.xValue)
  if out.status = "optimal" then
    ({ st1 with xValue := out.xOut }, Except.ok out.xOut)
  else
    (st1, Except.error ("Failed to solve optimization problem, status=" ++ out.status))

/-- A numpy-style 2d array: `shape = (rows, cols)` plus entries. Lengths may
disagree with the vectors, which is exactly what `__init__` checks. -/
structure NDArray2 where
  rows : Nat
  cols : Nat
  entry : Fin rows → Fin cols → ℚ

/-- The distinct `ValueError`s `__init__` can raise, tagged by their message:
`dimLenMismatch` = "len(x_min)=...!=...=len(x_max)" (line 23),
`dimAIncompat`  = "A.shape[1]=... incompatible with len(x_min)=..." (line 25),
`dimBIncompat`  = "len(b)=... incompatible with A.shape[0]=..." (line 27),
`matmulShape`   = the shape error the external library raises when the
constraint `A@self.x` is built with `A.shape[1] != n_dim` (line 37),
`infeasibleRegion` = "The constraints are infeasible" (line 44). -/
inductive InitError
  | dimLenMismatch (nmin nmax : Nat)
  | dimAIncompat (acols nmin : Nat)
  | dimBIncompat (nb arows : Nat)
  | matmulShape (acols ndim : Nat)
  | infeasibleRegion
deriving DecidableEq

/-- `ConstraintProjector.__init__` (lines 20–44), as observable effect:
the three `if` checks in source order — note the second check raises
precisely when `A.shape[1] == len(x_min)`, i.e. when the shapes AGREE —
then the constraint construction (`A@self.x` needs `A.shape[1] = n_dim`,
otherwise the external library raises a shape error), then the feasibility
solve with `self.goal.value = x_min` whose `'infeasible'` status raises.
`solve` abstracts `self.prob.solve()` at each dimension. -/
def constructInit (solve : (k n : Nat) → SolveFn k n)
    (x_min x_max : List ℚ) (A : NDArray2) (b : List ℚ) : Except InitError Unit :=
  if x_min.length ≠ x_max.length then
    Except.error (InitError.dimLenMismatch x_min.length x_max.length)
  else if A.cols = x_min.length then
    Except.error (InitError.dimAIncompat A.cols x_min.length)
  else if b.length ≠ A.rows then
    Except.error (InitError.dimBIncompat b.length A.rows)
  else if hmin : A.cols = x_min.length then
    if hmax : A.cols = x_max.length then
      if hb : b.length = A.rows then
        let R : Region A.rows A.cols :=
          { x_min := fun i => x_min.get (Fin.cast hmin i)
            x_max := fun i => x_max.get (Fin.cast hmax i)
            A := A.entry
            b := fun i => b.get (Fin.cast hb.symm i) }
        let out := solve A.rows A.cols R R.x_min none
        if out.status = "infeasible" then Except.error InitError.infeasibleRegion
        else Except.ok ()
      else Except.error (InitError.matmulShape A.cols x_min.length)
    else Except.error (InitError.matmulShape A.cols x_min.length)
  else Except.error (InitError.matmulShape A.cols x_min.length)

/-- A 1×2 constraint matrix of ones, `A = [[1, 1]]` (shape (1,2)). -/
def arr12 : NDArray2 := ⟨1, 2, fun _ _ => 1⟩

/-- A 3×5 constraint matrix of ones (the spec's mismatched-shape example). -/
def arr35 : NDArray2 := ⟨3, 5, fun _ _ => 1⟩

/-- A concrete one-dimensional region with no linear constraints:
`0 ≤ x ≤ 1`. -/
def demoRegion : Region 0 1 :=
  { x_min := fun _ => 0, x_max := fun _ => 1, A := fun _ _ => 0, b := fun _ => 0 }

/-- The all-zeros vector of length 1. -/
def zeroVec : Vec 1 := fun _ => 0

/-- The all-ones vector of length 1. -/
def oneVec : Vec 1 := fun _ => 1

/-- The all-twos vector of length 1. -/
def twoVec : Vec 1 := fun _ => 2

/-- A `ConstraintProjector` instance state over `demoRegion`, as left by a
successful construction. -/
def demoState : SolverState 0 1 :=
  { region := demoRegion, goalParam := zeroVec, xValue := zeroVec }

/-- A concrete external solver for `demoRegion`: reports "optimal" with
primal value 0 exactly when asked to project the goal 0 onto the box
`[0, 1]` (where 0 is indeed the projection), and a failure status
otherwise. -/
def demoSolve : SolveFn 0 1 := fun R gp _ =>
  if R.x_min 0 = 0 ∧ R.x_max 0 = 1 ∧ gp 0 = 0 then
    { status := "optimal", xOut := fun _ => 0 }
  else
    { status := "solver_error", xOut := gp }

/-- A solver that always reports "optimal" and returns the warm-start seed
it was handed as the primal value, making the seed observable through
`project`'s return value. -/
def echoSolve : SolveFn 0 1 := fun _ _ seed =>
  { status := "optimal", xOut := seed.getD (fun _ => 0) }

/-- A solver family that always reports "optimal" and echoes the goal. -/
def okSolve : (k n : Nat) → SolveFn k n := fun _ _ _ gp _ =>
  { status := "optimal", xOut := gp }

/-- A second instance state over `demoRegion` whose retained iterate and
goal parameter differ from `demoState`'s. -/
def demoState2 : SolverState 0 1 :=
  { region := demoRegion, goalParam := oneVec, xValue := oneVec }

theorem sqDist_nonneg {n : Nat} (x y : Vec n) : 0 ≤ sqDist x y :=
  Finset.sum_nonneg fun i _ => sq_nonneg (x i - y i)

theorem sqDist_self {n : Nat} (x : Vec n) : sqDist x x = 0 := by
  simp [sqDist]

theorem sqDist_eq_zero {n : Nat} {x y : Vec n} (h : sqDist x y = 0) : x = y := by
  funext i
  have hall := (Finset.sum_eq_zero_iff_of_nonneg
    (fun j _ => sq_nonneg (x j - y j))).mp h i (Finset.mem_univ i)
  have : x i - y i = 0 := by
    have := sq_eq_zero_iff.mp hall
    exact this
  linarith

theorem mulVec_midVec {k n : Nat} (A : Mat k n) (x y : Vec n) (i : Fin k) :
    mulVec A (midVec x y) i = (mulVec A x i + mulVec A y i) / 2 := by
  unfold mulVec midVec
  rw [← Finset.sum_add_distrib, Finset.sum_div]
  refine Finset.sum_congr rfl fun j _ => ?_
  ring

/-- The feasible region is convex: it contains midpoints. -/
theorem feasible_midVec {k n : Nat} {R : Region k n} {x y : Vec n}
    (hx : Feasible R x) (hy : Feasible R y) : Feasible R (midVec x y) := by
  obtain ⟨hx1, hx2, hx3⟩ := hx
  obtain ⟨hy1, hy2, hy3⟩ := hy
  refine ⟨fun i => ?_, fun i => ?_, fun i => ?_⟩
  · have := hx1 i; have := hy1 i; unfold midVec; linarith
  · have := hx2 i; have := hy2 i; unfold midVec; linarith
  · rw [mulVec_midVec]
    have := hx3 i; have := hy3 i; linarith

/-- Parallelogram identity for the squared distance at the midpoint. -/
theorem sqDist_midVec {n : Nat} (x y g : Vec n) :
    sqDist (midVec x y) g = (sqDist x g + sqDist y g) / 2 - sqDist x y / 4 := by
  unfold sqDist midVec
  rw [← Finset.sum_add_distrib, Finset.sum_div, Finset.sum_div, ← Finset.sum_sub_distrib]
  refine Finset.sum_congr rfl fun i _ => ?_
  ring

/-- The strictly convex problem has at most one solution: two projections of
the same goal onto the same region coincide. -/
theorem projection_unique {k n : Nat} {R : Region k n} {g x y : Vec n}
    (hx : IsProjection R g x) (hy : IsProjection R g y) : x = y := by
  have hxy : sqDist x g ≤ sqDist y g := hx.2 y hy.1
  have hyx : sqDist y g ≤ sqDist x g := hy.2 x hx.1
  have hm : Feasible R (midVec x y) := feasible_midVec hx.1 hy.1
  have hle : sqDist x g ≤ sqDist (midVec x y) g := hx.2 _ hm
  rw [sqDist_midVec] at hle
  have h0 : sqDist x y ≤ 0 := by linarith
  exact sqDist_eq_zero (le_antisymm h0 (sqDist_nonneg x y))

/-- A feasible goal is its own projection. -/
theorem projection_of_feasible {k n : Nat} {R : Region k n} {g : Vec n}
    (hg : Feasible R g) : IsProjection R g g :=
  ⟨hg, fun y _ => by rw [sqDist_self]; exact sqDist_nonneg y g⟩

theorem project_region {k n : Nat} (solve : SolveFn k n) (st : SolverState k n)
    (g : Vec n) : ((project solve st g).1).region = st.region := by
  simp only [project, seedState]
  split <;> rfl

theorem project_ok_isProjection {k n : Nat} {solve : SolveFn k n}
    {st : SolverState k n} {g x : Vec n} (hs : CorrectSolve solve)
    (hok : (project solve st g).2 = Except.ok x) : IsProjection st.region g x := by
  simp only [project, seedState] at hok
  split at hok
  case isTrue h =>
    have hx : (solve st.region g (some g)).xOut = x := by simpa using hok
    have hp := hs st.region g (some g) h
    rwa [hx] at hp
  case isFalse h =>
    simp at hok

theorem demoSolve_correct : CorrectSolve demoSolve := by
  intro R gp seed h
  unfold demoSolve at h ⊢
  split at h
  case isTrue hc =>
    obtain ⟨h1, h2, h3⟩ := hc
    rw [if_pos ⟨h1, h2, h3⟩]
    constructor
    · refine ⟨fun i => ?_, fun i => ?_, fun i => i.elim0⟩
      · have : i = 0 := Subsingleton.elim i 0
        rw [this, h1]
      · have : i = 0 := Subsingleton.elim i 0
        rw [this, h2]
        norm_num
    · intro y _
      have : sqDist (fun _ => (0 : ℚ)) gp = 0 := by
        simp [sqDist, Fin.sum_univ_one, h3]
      rw [this]
      exact sqDist_nonneg y gp
  case isFalse hc =>
    simp at h

/-- Claim C2: for every goal, the vector returned by a successful
`project(goal)` call satisfies every constraint of the region —
`x_min ≤ x* ≤ x_max` componentwise and `A·x* ≤ b` — given that the external
solver's "optimal" reports are genuine optima of the built problem. -/
theorem project_result_satisfies_constraints {k n : Nat} (solve : SolveFn k n)
    (st : SolverState k n) (goal x : Vec n) (hs : CorrectSolve solve)
    (hok : (project solve st goal).2 = Except.ok x) :
    (∀ i, st.region.x_min i ≤ x i) ∧ (∀ i, x i ≤ st.region.x_max i) ∧
      (∀ i, mulVec st.region.A x i ≤ st.region.b i) :=
  (project_ok_isProjection hs hok).1

theorem project_result_satisfies_constraints_witness :
    CorrectSolve demoSolve ∧
      (project demoSolve demoState zeroVec).2 = Except.ok zeroVec ∧
      ((∀ i, demoState.region.x_min i ≤ zeroVec i) ∧
        (∀ i, zeroVec i ≤ demoState.region.x_max i) ∧
        (∀ i, mulVec demoState.region.A zeroVec i ≤ demoState.region.b i)) :=
  ⟨demoSolve_correct, rfl,
    project_result_satisfies_constraints demoSolve demoState zeroVec zeroVec
      demoSolve_correct rfl⟩

/-- Claim C3: the result of `project(g2)` does not depend on the warm-start
seed: projecting `g1` first and then `g2` on one solver yields the same
vector for `g2` as a fresh solver over the same region (both solves being
correct when they report "optimal"). -/
theorem project_warm_start_independent {k n : Nat} (solve1 solve2 : SolveFn k n)
    (st1 st2 : SolverState k n) (g1 g2 x y : Vec n)
    (hr : st1.region = st2.region)
    (h1 : CorrectSolve solve1) (h2 : CorrectSolve solve2)
    (hx : (project solve1 (project solve1 st1 g1).1 g2).2 = Except.ok x)
    (hy : (project solve2 st2 g2).2 = Except.ok y) : x = y := by
  have px := project_ok_isProjection h1 hx
  rw [project_region] at px
  have py := project_ok_isProjection h2 hy
  rw [← hr] at py
  exact projection_unique px py

theorem project_warm_start_independent_witness :
    demoState.region = demoState.region ∧ CorrectSolve demoSolve ∧
      (project demoSolve (project demoSolve demoState oneVec).1 zeroVec).2 =
        Except.ok zeroVec ∧
      (project demoSolve demoState zeroVec).2 = Except.ok zeroVec ∧
      zeroVec = zeroVec :=
  ⟨rfl, demoSolve_correct, rfl, rfl,
    project_warm_start_independent demoSolve demoSolve demoState demoState
      oneVec zeroVec zeroVec zeroVec rfl demoSolve_correct demoSolve_correct rfl rfl⟩

/-- Claim C4: `project` is idempotent — feeding a successful result back in
returns the same vector, because the first result is already feasible. -/
theorem project_idempotent {k n : Nat} (solve : SolveFn k n) (st : SolverState k n)
    (g x y : Vec n) (hs : CorrectSolve solve)
    (h1 : (project solve st g).2 = Except.ok x)
    (h2 : (project solve (project solve st g).1 x).2 = Except.ok y) : y = x := by
  have px := project_ok_isProjection hs h1
  have py := project_ok_isProjection hs h2
  rw [project_region] at py
  exact projection_unique py (projection_of_feasible px.1)

theorem project_idempotent_witness :
    CorrectSolve demoSolve ∧
      (project demoSolve demoState zeroVec).2 = Except.ok zeroVec ∧
      (project demoSolve (project demoSolve demoState zeroVec).1 zeroVec).2 =
        Except.ok zeroVec ∧
      zeroVec = zeroVec :=
  ⟨demoSolve_correct, rfl, rfl,
    project_idempotent demoSolve demoState zeroVec zeroVec zeroVec
      demoSolve_correct rfl rfl⟩

/-- Claim C5: projecting a goal that already satisfies all the region's
constraints returns the goal itself. -/
theorem project_feasible_goal_noop {k n : Nat} (solve : SolveFn k n)
    (st : SolverState k n) (g x : Vec n) (hs : CorrectSolve solve)
    (hg : Feasible st.region g)
    (hok : (project solve st g).2 = Except.ok x) : x = g :=
  projection_unique (project_ok_isProjection hs hok) (projection_of_feasible hg)

theorem zeroVec_feasible : Feasible demoRegion zeroVec := by
  refine ⟨fun i => ?_, fun i => ?_, fun i => i.elim0⟩ <;>
    norm_num [demoRegion, zeroVec]

theorem project_feasible_goal_noop_witness :
    CorrectSolve demoSolve ∧ Feasible demoState.region zeroVec ∧
      (project demoSolve demoState zeroVec).2 = Except.ok zeroVec ∧
      zeroVec = zeroVec :=
  ⟨demoSolve_correct, zeroVec_feasible, rfl,
    project_feasible_goal_noop demoSolve demoState zeroVec zeroVec
      demoSolve_correct zeroVec_feasible rfl⟩

/-- Claim C6: `project` raises exactly when the solve's status is not
"optimal" (never returning a stale or approximate value), and returns the
solver's computed value exactly when the status is "optimal". -/
theorem project_error_iff_not_optimal {k n : Nat} (solve : SolveFn k n)
    (st : SolverState k n) (goal : Vec n) :
    ((project solve st goal).2 =
        Except.error ("Failed to solve optimization problem, status=" ++
          (solve st.region goal (some goal)).status) ↔
      (solve st.region goal (some goal)).status ≠ "optimal") ∧
    ((project solve st goal).2 =
        Except.ok ((solve st.region goal (some goal)).xOut) ↔
      (solve st.region goal (some goal)).status = "optimal") := by
  by_cases h : (solve st.region goal (some goal)).status = "optimal"
  · simp [project, seedState, h]
  · simp [project, seedState, h]

/-- Claim C8: a length mismatch between `x_min` and `x_max` makes
construction fail with the length-mismatch dimension error, before any
other validation — for every `A` and `b`, however malformed. -/
theorem construct_len_check_first (solve : (k n : Nat) → SolveFn k n)
    (x_min x_max : List ℚ) (A : NDArray2) (b : List ℚ)
    (h : x_min.length ≠ x_max.length) :
    constructInit solve x_min x_max A b =
      Except.error (InitError.dimLenMismatch x_min.length x_max.length) := by
  unfold constructInit
  rw [if_pos h]

theorem construct_len_check_first_witness :
    ([(0 : ℚ), 0, 0].length ≠ [(0 : ℚ), 0].length) ∧
      constructInit okSolve [0, 0, 0] [0, 0] arr12 [5] =
        Except.error (InitError.dimLenMismatch 3 2) :=
  ⟨by decide, construct_len_check_first okSolve [0, 0, 0] [0, 0] arr12 [5] (by decide)⟩

/-- Claim C1 (code defect): the source's second shape check is inverted —
`if A.shape[1] == len(x_min): raise`. With `x_min` of length 2 and a 1×2
matrix (compatible shapes) construction raises the "incompatible" dimension
error; with the spec's mismatched example (`x_min` length 2, `A` 3×5) that
check does not fire and construction fails later, at the `A@x` constraint
build, instead. -/
theorem construct_dim_check_inverted (solve : (k n : Nat) → SolveFn k n) :
    constructInit solve [0, 0] [1, 1] arr12 [5] =
        Except.error (InitError.dimAIncompat 2 2) ∧
      constructInit solve [0, 0] [1, 1] arr35 [0, 0, 0] =
        Except.error (InitError.matmulShape 5 2) :=
  ⟨rfl, rfl⟩

/-- Claim C7 (code defect): construction can never fail with the
infeasible-region error (nor succeed): every input either trips one of the
three shape checks — the inverted second check fires precisely on
compatible shapes — or reaches the `A@x` constraint build with incompatible
shapes. In particular the spec's empty-box example `x_min=[0,5]`,
`x_max=[1,1]` raises the (inverted) dimension error, not InfeasibleRegion. -/
theorem construct_never_reports_infeasible (solve : (k n : Nat) → SolveFn k n)
    (x_min x_max : List ℚ) (A : NDArray2) (b : List ℚ) :
    (constructInit solve x_min x_max A b ≠
        Except.error InitError.infeasibleRegion ∧
      constructInit solve x_min x_max A b ≠ Except.ok ()) ∧
    constructInit solve [0, 5] [1, 1] arr12 [5] =
      Except.error (InitError.dimAIncompat 2 2) := by
  refine ⟨⟨fun he => ?_, fun he => ?_⟩, rfl⟩
  · unfold constructInit at he
    split_ifs at he <;> simp_all
  · unfold constructInit at he
    split_ifs at he

/-- Claim C9 is false of the code: `project` seeds the solve with the
supplied goal on EVERY call, not with the iterate retained from the
preceding call. Observed through `echoSolve`, whose "optimal" primal value
is the seed it was handed: after a first call with goal 1 the retained
iterate is 1, yet a second call with goal 2 returns 2 — the seed was the
new goal, not the retained iterate. -/
theorem project_seed_counterexample :
    (project echoSolve demoState oneVec).1.xValue = oneVec ∧
      (project echoSolve (project echoSolve demoState oneVec).1 twoVec).2 =
        Except.ok twoVec ∧
      (Except.ok twoVec : Except String (Vec 1)) ≠ Except.ok oneVec := by
  refine ⟨rfl, rfl, fun h => ?_⟩
  have h2 := congrFun (Except.ok.inj h) 0
  norm_num [twoVec, oneVec] at h2

/-- Claim C9 as amended: on every call, including the first, the solve is
seeded with the supplied goal itself; the retained iterate and goal
parameter are overwritten before the solve, so two instances over the same
region behave identically on the same goal whatever their retained state. -/
theorem project_seed_is_goal {k n : Nat} (solve : SolveFn k n)
    (st st2 : SolverState k n) (goal : Vec n)
    (hr : st.region = st2.region) :
    (seedState st goal).xValue = goal ∧ (seedState st goal).goalParam = goal ∧
      project solve st goal = project solve st2 goal := by
  have hseed : seedState st goal = seedState st2 goal := by
    unfold seedState
    rw [hr]
  refine ⟨rfl, rfl, ?_⟩
  unfold project
  rw [hseed]

theorem project_seed_is_goal_witness :
    demoState.region = demoState2.region ∧
      ((seedState demoState zeroVec).xValue = zeroVec ∧
        (seedState demoState zeroVec).goalParam = zeroVec ∧
        project demoSolve demoState zeroVec = project demoSolve demoState2 zeroVec) :=
  ⟨rfl, project_seed_is_goal demoSolve demoState demoState2 zeroVec rfl⟩

/-- Claim C10: `project` is not atomic on failure — when the solve status is
not "optimal" the call raises, yet the instance state has already been
overwritten: both the goal parameter and the primal iterate hold the
failing goal. -/
theorem project_not_atomic_on_failure {k n : Nat} (solve : SolveFn k n)
    (st : SolverState k n) (goal : Vec n)
    (h : (solve st.region goal (some goal)).status ≠ "optimal") :
    (project solve st goal).2 =
        Except.error ("Failed to solve optimization problem, status=" ++
          (solve st.region goal (some goal)).status) ∧
      (project solve st goal).1 = seedState st goal ∧
      (seedState st goal).goalParam = goal ∧ (seedState st goal).xValue = goal := by
  refine ⟨?_, ?_, rfl, rfl⟩ <;> simp [project, seedState, h]

theorem project_not_atomic_on_failure_witness :
    (demoSolve demoState.region oneVec (some oneVec)).status ≠ "optimal" ∧
      ((project demoSolve demoState oneVec).2 =
          Except.error ("Failed to solve optimization problem, status=" ++
            (demoSolve demoState.region oneVec (some oneVec)).status) ∧
        (project demoSolve demoState oneVec).1 = seedState demoState oneVec ∧
        (seedState demoState oneVec).goalParam = oneVec ∧
        (seedState demoState oneVec).xValue = oneVec) :=
  ⟨by decide, project_not_atomic_on_failure demoSolve demoState oneVec (by decide)⟩
